import Mathlib

/-!
Shallow embedding of the boundary-resolution pipeline of `src/gdamApp.py`
(the GeoBoundary Extractor core): group resolution, country resolution,
shapefile/GeoJSON loading with level-down fallback, name-field selection,
geometry extraction, and feature-collection aggregation.

GeoDataFrames are modelled as a list of attribute columns plus a list of
rows; each row carries an association list of optional string cells (a
missing or NaN cell is `none`) and one geometry.  The shapefile store, the
global country-level dataset, the group-membership table and the external
country-name lookup table are parameters of the embedding.
-/

/-- Python `str.lower()`: character-wise lowercasing, written at the level
of the character list so that it is kernel-computable.  It agrees with the
library function `String.toLower` (see `pyLower_eq_toLower`). -/
def pyLower (s : String) : String := ⟨s.data.map Char.toLower⟩

/-- Python `str.upper()`, character-wise, kernel-computable. -/
def pyUpper (s : String) : String := ⟨s.data.map Char.toUpper⟩

/-- Python `str.strip()`: drop leading and trailing whitespace. -/
def pyStrip (s : String) : String :=
  ⟨((s.data.dropWhile Char.isWhitespace).reverse.dropWhile Char.isWhitespace).reverse⟩

theorem pyLower_eq_toLower (s : String) : pyLower s = s.toLower :=
  (String.map_eq Char.toLower s).symm

theorem pyUpper_eq_toUpper (s : String) : pyUpper s = s.toUpper :=
  (String.map_eq Char.toUpper s).symm

inductive Geometry
  | polygon (rings : List (List (Int × Int)))
  | multiPolygon (polys : List (List (List (Int × Int))))
  | point (p : Int × Int)
  | lineString (pts : List (Int × Int))
  deriving DecidableEq

def geomType : Geometry → String
  | .polygon _ => "Polygon"
  | .multiPolygon _ => "MultiPolygon"
  | .point _ => "Point"
  | .lineString _ => "LineString"

structure Row where
  cells : List (String × Option String)
  geometry : Geometry
  deriving DecidableEq

/-- Cell access: a column missing from the row reads as a null (NaN) cell. -/
def getCell (r : Row) (c : String) : Option String :=
  (r.cells.lookup c).join

structure GeoDataFrame where
  columns : List String
  rows : List Row
  deriving DecidableEq

/-- The error kinds raised by the pipeline, named as in the specification.
`attributeError` models the Python AttributeError raised when a method is
called on `None` (for example `None.strip()`). -/
inductive PyError
  | datasetNotFound
  | areaNotFound
  | countryResolution (msg : String)
  | noNameField
  | columnNotFound
  | unsupportedGeoJson
  | noNameColumn
  | attributeError
  deriving DecidableEq

/-- The global alias table `group_aliases` of `gdamApp.py`, in source order. -/
def group_aliases : List (String × String) :=
  [("eu", "European Union"), ("european union", "European Union"),
   ("gcc", "GCC"), ("gulf cooperation council", "GCC"),
   ("saarc", "South Asia"), ("south asia", "South Asia"),
   ("na", "North America"), ("north america", "North America"),
   ("sa", "South America"), ("south america", "South America"),
   ("asia", "Asia"), ("africa", "Africa"),
   ("oceania", "Oceania"), ("world", "World")]

/-- `groups.get(canonical_name, [])` on the groups.json mapping. -/
def groupsGet (groups : List (String × List String)) (name : String) : List String :=
  (groups.lookup name).getD []

/-- `resolve_group`.  The groups.json content is the `groups` parameter.
A `none` group name models Python `None`: `None.strip()` raises
AttributeError before any lookup happens. -/
def resolve_group (group_name : Option String) (groups : List (String × List String)) :
    Except PyError (List String) :=
  match group_name with
  | none => .error .attributeError
  | some s =>
      let group_name_clean := pyLower (pyStrip s)
      let canonical_name := (group_aliases.lookup group_name_clean).getD s
      .ok (groupsGet groups canonical_name)

/-- `country_to_iso3`.  The pycountry lookup table is the `lookup`
parameter (name to alpha_3); a failed lookup raises ValueError with the
offending name interpolated into the message. -/
def country_to_iso3 (lookup : String → Option String) (name : String) :
    Except PyError String :=
  match lookup name with
  | some a3 => .ok a3
  | none => .error (.countryResolution ("Could not resolve country name: " ++ name))

/-- Candidate country-name columns probed by `load_from_geojson`. -/
def geojson_country_cols : List String := ["name", "country", "admin", "NAME", "CNTRY_NAME"]

/-- First candidate column present in the dataset (the for/break loop). -/
def firstPresent (gdf : GeoDataFrame) : List String → Option String
  | [] => none
  | c :: cs => if c ∈ gdf.columns then some c else firstPresent gdf cs

/-- `load_from_geojson`.  Keeps polygonal geometries only, finds the first
recognized country-name column, then filters rows whose cell is in the
requested country list. -/
def load_from_geojson (globalGdf : GeoDataFrame) (countries : List (Option String)) :
    Except PyError GeoDataFrame :=
  let gdf : GeoDataFrame :=
    { globalGdf with rows := globalGdf.rows.filter (fun r =>
        decide (geomType r.geometry ∈ (["Polygon", "MultiPolygon"] : List String))) }
  match firstPresent gdf geojson_country_cols with
  | none => .error .noNameColumn
  | some country_col =>
      .ok { gdf with rows := gdf.rows.filter (fun r =>
              decide (getCell r country_col ∈ countries)) }

/-- The descending existence scan of `load_from_shapefile`:
`for level in range(admin_level, -1, -1)` returning the first level whose
shapefile exists, together with the loaded dataset.  The store is keyed by
uppercase ISO3 code and admin level (the on-disk path is a function of
exactly these two). -/
def searchDown (store : String → Nat → Option GeoDataFrame) (iso : String) :
    Nat → Option (Nat × GeoDataFrame)
  | 0 => (store iso 0).map (fun g => (0, g))
  | l + 1 =>
      match store iso (l + 1) with
      | some g => some (l + 1, g)
      | none => searchDown store iso l

/-- Candidate name columns tried in order by `load_from_shapefile`. -/
def name_columns : List String :=
  ["COUNTRY", "NAME_0", "NAME_1", "NAME_2", "NAME_3", "NAME_4", "NAME_5"]

/-- `gdf[gdf[col].str.lower() == area_name_lower]`: keep the rows whose
cell in `col` lowercases to `lowerName` (a null cell compares false). -/
def filterByName (gdf : GeoDataFrame) (col : String) (lowerName : String) : GeoDataFrame :=
  { gdf with rows := gdf.rows.filter (fun r =>
      match getCell r col with
      | some v => pyLower v == lowerName
      | none => false) }

/-- The name-matching loop of `load_from_shapefile`: first candidate column
present in the dataset whose filtered rows are non-empty. -/
def findNameMatch (gdf : GeoDataFrame) (lowerName : String) :
    List String → Option GeoDataFrame
  | [] => none
  | c :: cs =>
      if c ∈ gdf.columns then
        if (filterByName gdf c lowerName).rows = [] then findNameMatch gdf lowerName cs
        else some (filterByName gdf c lowerName)
      else findNameMatch gdf lowerName cs

/-- `load_from_shapefile`.  Uppercases the country code, scans levels
downward for the first existing file, then (when a non-empty area name is
given: `if area_name:` is false on the empty string) filters by the first
matching name column.  No file at any level raises FileNotFoundError,
modelled as `datasetNotFound`; no matching column raises ValueError,
modelled as `areaNotFound`. -/
def load_from_shapefile (store : String → Nat → Option GeoDataFrame)
    (country_iso3 : String) (admin_level : Nat) (area_name : Option String) :
    Except PyError GeoDataFrame :=
  let iso := pyUpper country_iso3
  match searchDown store iso admin_level with
  | none => .error .datasetNotFound
  | some (_, gdf) =>
      match area_name with
      | some an =>
          if an = "" then .ok gdf
          else
            match findNameMatch gdf (pyLower an) name_columns with
            | some filtered => .ok filtered
            | none => .error .areaNotFound
      | none => .ok gdf

/-- The parsed query item (the Pydantic `GeoQueryItem`).  `area_name` is a
required string in the schema, but `get_data` defensively checks it for
`None`, so it is modelled as optional here. -/
structure GeoQueryItem where
  area_name : Option String
  admin_level : Nat
  is_group_query : Bool
  group_name : Option String
  parent_country : Option String
  deriving DecidableEq

/-- The read-only backing state of the pipeline: the per-country shapefile
store, the global country-level dataset (`./geodata/level1.json`), the
group-membership table (`./geodata/groups.json`) and the external
country-name lookup table (pycountry). -/
structure Env where
  store : String → Nat → Option GeoDataFrame
  globalDataset : GeoDataFrame
  groups : List (String × List String)
  countryLookup : String → Option String

/-- Python `x or y` on optional strings: `None` and the empty string are
falsy. -/
def pyOr : Option String → Option String → Option String
  | some s, b => if s = "" then b else some s
  | none, b => b

def general_admin_levels : List Nat := [4, 6, 8, 9]

/-- The pass-through condition of `get_data`:
`admin_level in general_admin_levels and (area_name is None or
(parent_country and area_name.lower() == parent_country.lower()))`,
with Python short-circuiting and truthiness. -/
def generalCondition (q : GeoQueryItem) : Bool :=
  decide (q.admin_level ∈ general_admin_levels) &&
    (q.area_name.isNone ||
      (match q.parent_country, q.area_name with
       | some p, some a => (p != "") && (pyLower a == pyLower p)
       | _, _ => false))

/-- `get_data`.  Group queries and country-level (admin_level 2) queries go
to the global dataset; all other levels resolve a country code and go to
the shapefile store.  Resolving the country on a `None` name models the
AttributeError raised inside the external lookup (not caught by the
ValueError handler); a ValueError from `country_to_iso3` is re-raised with
a wrapping message. -/
def get_data (env : Env) (q : GeoQueryItem) : Except PyError GeoDataFrame :=
  if q.is_group_query then
    match resolve_group q.group_name env.groups with
    | .error e => .error e
    | .ok countries => load_from_geojson env.globalDataset (countries.map some)
  else if q.admin_level = 2 then
    load_from_geojson env.globalDataset [q.area_name]
  else
    match pyOr q.parent_country q.area_name with
    | none => .error .attributeError
    | some nm =>
        match country_to_iso3 env.countryLookup nm with
        | .error (.countryResolution m) =>
            .error (.countryResolution ("Failed to resolve country for shapefile lookup: " ++ m))
        | .error e => .error e
        | .ok iso =>
            if generalCondition q then
              load_from_shapefile env.store iso q.admin_level none
            else
              load_from_shapefile env.store iso q.admin_level q.area_name

/-- The per-level priority table `admin_name_map` of `select_name_field`. -/
def admin_name_map : Nat → Option (List String)
  | 9 => some ["NAME_4", "NAME_3", "name"]
  | 8 => some ["NAME_4", "NAME_3", "name"]
  | 7 => some ["NAME_3", "NAME_2", "NAME_1", "name"]
  | 6 => some ["NAME_2", "NAME_1", "name"]
  | 4 => some ["NAME_1", "COUNTRY", "name"]
  | 2 => some ["COUNTRY", "NAME", "name"]
  | _ => none

/-- The generic fallback candidate list of `select_name_field`. -/
def default_candidates : List String :=
  ["NAME_4", "NAME_3", "NAME_2", "NAME_1", "COUNTRY", "NAME", "name", "admin", "label"]

/-- `admin_name_map.get(admin_level, default_candidates)`. -/
def candidatesFor (admin_level : Nat) : List String :=
  (admin_name_map admin_level).getD default_candidates

/-- The qualification test of `select_name_field`:
`col in gdf.columns and gdf[col].dropna().astype(str).str.strip().any()`,
i.e. the column is present and some non-null cell is non-empty after
stripping whitespace. -/
def colQualifies (gdf : GeoDataFrame) (c : String) : Bool :=
  decide (c ∈ gdf.columns) &&
    gdf.rows.any (fun r =>
      match getCell r c with
      | some v => pyStrip v != ""
      | none => false)

/-- The candidate scan loop of `select_name_field`. -/
def selectLoop (gdf : GeoDataFrame) : List String → Option String
  | [] => none
  | c :: cs => if colQualifies gdf c then some c else selectLoop gdf cs

/-- `select_name_field`: first qualifying candidate column, ValueError
(modelled as `noNameField`) when none qualifies. -/
def select_name_field (gdf : GeoDataFrame) (admin_level : Nat) : Except PyError String :=
  match selectLoop gdf (candidatesFor admin_level) with
  | some c => .ok c
  | none => .error .noNameField

/-- `extract_geometry_with_name`: two-column projection renaming the chosen
column to `name`, preserving row order and geometries. -/
def extract_geometry_with_name (gdf : GeoDataFrame) (name_column : String) :
    Except PyError GeoDataFrame :=
  if name_column ∈ gdf.columns then
    .ok { columns := ["name"],
          rows := gdf.rows.map (fun r =>
            { cells := [("name", getCell r name_column)], geometry := r.geometry }) }
  else .error .columnNotFound

structure Feature where
  name : Option String
  geometry : Geometry
  deriving DecidableEq

/-- A GeoJSON value as seen by `combine_geojsons`: the structural tag read
by `gj.get("type")` plus, for the supported tags, the carried features. -/
inductive GeoJson
  | featureCollection (features : List Feature)
  | feature (f : Feature)
  | other (tag : Option String)
  deriving DecidableEq

/-- `__geo_interface__` of a projected GeoDataFrame: one feature per row. -/
def geoInterface (gdf : GeoDataFrame) : GeoJson :=
  .featureCollection (gdf.rows.map (fun r =>
    { name := getCell r "name", geometry := r.geometry }))

def featuresOf : GeoJson → List Feature
  | .featureCollection fs => fs
  | .feature f => [f]
  | .other _ => []

def supportedGeoJson : GeoJson → Bool
  | .featureCollection _ => true
  | .feature _ => true
  | .other _ => false

/-- The accumulation loop of `combine_geojsons`: extend with a feature
collection, append a bare feature, raise ValueError (modelled as
`unsupportedGeoJson`) on any other tag. -/
def collectFeatures : List GeoJson → Except PyError (List Feature)
  | [] => .ok []
  | gj :: rest =>
      match gj with
      | .featureCollection fs => (collectFeatures rest).map (fun acc => fs ++ acc)
      | .feature f => (collectFeatures rest).map (fun acc => f :: acc)
      | .other _ => .error .unsupportedGeoJson

/-- `combine_geojsons`: flatten and wrap in a FeatureCollection envelope. -/
def combine_geojsons (geojson_list : List GeoJson) : Except PyError GeoJson :=
  (collectFeatures geojson_list).map (fun fs => GeoJson.featureCollection fs)

/-- The per-item body of the Run Query loop: load the data, select the name
field, project, and take the geo interface. -/
def processItem (env : Env) (q : GeoQueryItem) : Except PyError GeoJson := do
  let gdf ← get_data env q
  let field_name ← select_name_field gdf q.admin_level
  let new_gdf ← extract_geometry_with_name gdf field_name
  pure (geoInterface new_gdf)

/-- The Run Query loop: each item is processed inside a try/except, a
success appends its geo interface to the accumulator, a failure is
reported and skipped. -/
def runQueryLoop (env : Env) : List GeoQueryItem → List GeoJson
  | [] => []
  | q :: qs =>
      match processItem env q with
      | .ok g => g :: runQueryLoop env qs
      | .error _ => runQueryLoop env qs

deriving instance DecidableEq for Except

/-! ### Helper lemmas -/

theorem pyLower_eq_empty {s : String} (h : pyLower s = "") : s = "" := by
  cases s with
  | mk d =>
    have h2 := congrArg String.data h
    simp [pyLower] at h2
    simp [h2]

theorem searchDown_eq_none_iff (store : String → Nat → Option GeoDataFrame)
    (iso : String) (L : Nat) :
    searchDown store iso L = none ↔ ∀ l, l ≤ L → store iso l = none := by
  induction L with
  | zero =>
      simp only [searchDown, Option.map_eq_none']
      constructor
      · intro h l hl
        have hl0 : l = 0 := Nat.le_zero.mp hl
        rw [hl0]; exact h
      · intro h; exact h 0 le_rfl
  | succ n ih =>
      simp only [searchDown]
      cases h : store iso (n + 1) with
      | some g =>
          simp only [reduceCtorEq, false_iff, not_forall]
          exact ⟨n + 1, le_rfl, by simp [h]⟩
      | none =>
          rw [ih]
          constructor
          · intro hall l hl
            rcases Nat.lt_or_ge l (n + 1) with h1 | h1
            · exact hall l (by omega)
            · have : l = n + 1 := by omega
              rw [this]; exact h
          · intro hall l hl
            exact hall l (by omega)

theorem searchDown_eq_some_of (store : String → Nat → Option GeoDataFrame)
    (iso : String) :
    ∀ (L l : Nat) (g : GeoDataFrame), l ≤ L → store iso l = some g →
      (∀ m, l < m → m ≤ L → store iso m = none) →
      searchDown store iso L = some (l, g) := by
  intro L
  induction L with
  | zero =>
      intro l g hl hg _
      have hl0 : l = 0 := Nat.le_zero.mp hl
      subst hl0
      simp [searchDown, hg]
  | succ n ih =>
      intro l g hl hg habove
      by_cases hln : l = n + 1
      · subst hln
        simp [searchDown, hg]
      · have hle : l ≤ n := by omega
        have hnone : store iso (n + 1) = none := habove (n + 1) (by omega) le_rfl
        simp only [searchDown, hnone]
        exact ih l g hle hg (fun m h1 h2 => habove m h1 (by omega))

theorem findNameMatch_eq_none_iff (gdf : GeoDataFrame) (lowerName : String)
    (cols : List String) :
    findNameMatch gdf lowerName cols = none ↔
      ∀ c ∈ cols, c ∈ gdf.columns → (filterByName gdf c lowerName).rows = [] := by
  induction cols with
  | nil => simp [findNameMatch]
  | cons c cs ih =>
      by_cases hc : c ∈ gdf.columns
      · by_cases hf : (filterByName gdf c lowerName).rows = []
        · simp [findNameMatch, hc, hf, ih]
        · simp [findNameMatch, hc, hf]
      · simp [findNameMatch, hc, ih]

theorem findNameMatch_eq_some_first (gdf : GeoDataFrame) (lowerName : String) :
    ∀ (pre suf : List String) (c : String),
      c ∈ gdf.columns → (filterByName gdf c lowerName).rows ≠ [] →
      (∀ p ∈ pre, p ∈ gdf.columns → (filterByName gdf p lowerName).rows = []) →
      findNameMatch gdf lowerName (pre ++ c :: suf) =
        some (filterByName gdf c lowerName) := by
  intro pre
  induction pre with
  | nil =>
      intro suf c hc hne _
      simp [findNameMatch, hc, hne]
  | cons p ps ih =>
      intro suf c hc hne hpre
      have hrest : ∀ x ∈ ps, x ∈ gdf.columns → (filterByName gdf x lowerName).rows = [] :=
        fun x hx h2 => hpre x (by simp [hx]) h2
      by_cases hp : p ∈ gdf.columns
      · have hpe : (filterByName gdf p lowerName).rows = [] := hpre p (by simp) hp
        simp only [List.cons_append, findNameMatch, hp, if_pos, hpe, if_true]
        exact ih suf c hc hne hrest
      · simp only [List.cons_append, findNameMatch, hp, if_false]
        exact ih suf c hc hne hrest

theorem selectLoop_eq_none_iff (gdf : GeoDataFrame) (cols : List String) :
    selectLoop gdf cols = none ↔ ∀ c ∈ cols, colQualifies gdf c = false := by
  induction cols with
  | nil => simp [selectLoop]
  | cons c cs ih =>
      cases h : colQualifies gdf c with
      | true => simp [selectLoop, h]
      | false => simp [selectLoop, h, ih]

theorem selectLoop_eq_some_iff (gdf : GeoDataFrame) (cols : List String) (c : String) :
    selectLoop gdf cols = some c ↔
      ∃ pre suf, cols = pre ++ c :: suf ∧ colQualifies gdf c = true ∧
        ∀ p ∈ pre, colQualifies gdf p = false := by
  induction cols with
  | nil => simp [selectLoop]
  | cons d ds ih =>
      by_cases h : colQualifies gdf d = true
      · rw [show selectLoop gdf (d :: ds) = some d from by simp [selectLoop, h]]
        constructor
        · intro hdc
          have hdc2 : d = c := Option.some.inj hdc
          subst hdc2
          exact ⟨[], ds, rfl, h, by simp⟩
        · rintro ⟨pre, suf, heq, hq, hpre⟩
          cases pre with
          | nil =>
              simp only [List.nil_append, List.cons.injEq] at heq
              rw [heq.1]
          | cons p ps =>
              simp only [List.cons_append, List.cons.injEq] at heq
              have hd : colQualifies gdf p = false := hpre p (by simp)
              rw [← heq.1] at hd
              rw [hd] at h
              exact Bool.noConfusion h
      · have hf : colQualifies gdf d = false := by simpa using h
        rw [show selectLoop gdf (d :: ds) = selectLoop gdf ds from by simp [selectLoop, hf]]
        rw [ih]
        constructor
        · rintro ⟨pre, suf, heq, hq, hpre⟩
          refine ⟨d :: pre, suf, by simp [heq], hq, ?_⟩
          intro p hp
          rcases List.mem_cons.mp hp with hp1 | hp2
          · rw [hp1]; exact hf
          · exact hpre p hp2
        · rintro ⟨pre, suf, heq, hq, hpre⟩
          cases pre with
          | nil =>
              simp only [List.nil_append, List.cons.injEq] at heq
              rw [heq.1] at hf
              rw [hf] at hq
              exact Bool.noConfusion hq
          | cons p ps =>
              simp only [List.cons_append, List.cons.injEq] at heq
              exact ⟨ps, suf, heq.2, hq, fun x hx => hpre x (by simp [hx])⟩

theorem runQueryLoop_append (env : Env) (xs ys : List GeoQueryItem) :
    runQueryLoop env (xs ++ ys) = runQueryLoop env xs ++ runQueryLoop env ys := by
  induction xs with
  | nil => simp [runQueryLoop]
  | cons q qs ih =>
      simp only [List.cons_append, runQueryLoop]
      cases processItem env q with
      | ok g => simp [ih]
      | error e => simp [ih]

theorem collectFeatures_of_supported (l : List GeoJson)
    (h : ∀ gj ∈ l, supportedGeoJson gj = true) :
    collectFeatures l = .ok (l.flatMap featuresOf) := by
  induction l with
  | nil => simp [collectFeatures]
  | cons gj rest ih =>
      have hrest : ∀ x ∈ rest, supportedGeoJson x = true := fun x hx => h x (by simp [hx])
      have hgj : supportedGeoJson gj = true := h gj (by simp)
      cases gj with
      | featureCollection fs => simp [collectFeatures, ih hrest, featuresOf, Except.map]
      | feature f => simp [collectFeatures, ih hrest, featuresOf, Except.map]
      | other tag => simp [supportedGeoJson] at hgj

/-! ### Claim theorems -/

/-- Claim C1: for every country code, requested admin level and optional
area name, `load_from_shapefile` walks levels downward from the requested
one toward 0 and raises `datasetNotFound` exactly when no dataset exists
at any of those levels; when some level exists, the first (highest) such
level is the one loaded, and with no area filter its whole dataset is
returned.  In particular a level-9 request on a country holding only a
level-6 file returns the level-6 dataset. -/
theorem load_from_shapefile_fallback (store : String → Nat → Option GeoDataFrame)
    (country_iso3 : String) (L : Nat) :
    (∀ area, load_from_shapefile store country_iso3 L area = .error .datasetNotFound ↔
        ∀ l, l ≤ L → store (pyUpper country_iso3) l = none)
    ∧ (∀ l g, l ≤ L → store (pyUpper country_iso3) l = some g →
        (∀ m, l < m → m ≤ L → store (pyUpper country_iso3) m = none) →
        load_from_shapefile store country_iso3 L none = .ok g) := by
  constructor
  · intro area
    rw [← searchDown_eq_none_iff store (pyUpper country_iso3) L]
    cases hsd : searchDown store (pyUpper country_iso3) L with
    | none => simp [load_from_shapefile, hsd]
    | some lg =>
        obtain ⟨l, gdf⟩ := lg
        simp only [load_from_shapefile, hsd]
        constructor
        · intro hcontra
          exfalso
          cases area with
          | none => simp at hcontra
          | some an =>
              by_cases he : an = ""
              · simp [he] at hcontra
              · simp only [he, if_false] at hcontra
                cases hfm : findNameMatch gdf (pyLower an) name_columns with
                | some f => rw [hfm] at hcontra; simp at hcontra
                | none => rw [hfm] at hcontra; simp at hcontra
        · intro hcontra
          exact Option.noConfusion hcontra
  · intro l g hl hg hab
    have hsd := searchDown_eq_some_of store (pyUpper country_iso3) L l g hl hg hab
    simp [load_from_shapefile, hsd]

def fraLevel6 : GeoDataFrame :=
  { columns := ["NAME_2"],
    rows := [ { cells := [("NAME_2", some "Finistere")],
                geometry := .polygon [[(0, 0), (4, 0), (0, 4)]] } ] }

/-- A store holding a single shapefile for FRA, at admin level 6 only. -/
def fraStore : String → Nat → Option GeoDataFrame :=
  fun iso l => if iso = "FRA" ∧ l = 6 then some fraLevel6 else none

/-- Witness for C1: a level-9 request against a country that has only a
level-6 file falls back to the level-6 dataset. -/
theorem load_from_shapefile_fallback_witness :
    load_from_shapefile fraStore "fra" 9 none = .ok fraLevel6 := by
  refine (load_from_shapefile_fallback fraStore "fra" 9).2 6 fraLevel6 (by decide) rfl ?_
  intro m h1 h2
  interval_cases m <;> rfl

/-- Claim C8: `select_name_field` returns the first column of the candidate
list of the level (per-level priority list, or the generic fallback for other
levels) that is present in the dataset and holds at least one non-empty
value after stripping, and raises `noNameField` exactly when no candidate
qualifies.  Level 9 uses the priority list NAME_4, NAME_3, name. -/
theorem select_name_field_spec (gdf : GeoDataFrame) (admin_level : Nat) :
    (∀ c, select_name_field gdf admin_level = .ok c ↔
        ∃ pre suf, candidatesFor admin_level = pre ++ c :: suf ∧
          colQualifies gdf c = true ∧ ∀ p ∈ pre, colQualifies gdf p = false)
    ∧ (select_name_field gdf admin_level = .error .noNameField ↔
        ∀ c ∈ candidatesFor admin_level, colQualifies gdf c = false)
    ∧ (∀ c, colQualifies gdf c = true ↔
        c ∈ gdf.columns ∧ ∃ r ∈ gdf.rows, ∃ v, getCell r c = some v ∧ pyStrip v ≠ "")
    ∧ candidatesFor 9 = ["NAME_4", "NAME_3", "name"] := by
  refine ⟨?_, ?_, ?_, rfl⟩
  · intro c
    rw [← selectLoop_eq_some_iff]
    unfold select_name_field
    cases h : selectLoop gdf (candidatesFor admin_level) <;> simp [h]
  · rw [← selectLoop_eq_none_iff]
    unfold select_name_field
    cases h : selectLoop gdf (candidatesFor admin_level) <;> simp [h]
  · intro c
    simp only [colQualifies, Bool.and_eq_true, decide_eq_true_eq, List.any_eq_true]
    constructor
    · rintro ⟨hmem, r, hr, hmatch⟩
      refine ⟨hmem, r, hr, ?_⟩
      cases hv : getCell r c with
      | none => rw [hv] at hmatch; simp at hmatch
      | some v =>
          rw [hv] at hmatch
          simp only [bne_iff_ne, ne_eq] at hmatch
          exact ⟨v, rfl, hmatch⟩
    · rintro ⟨hmem, r, hr, v, hv, hne⟩
      refine ⟨hmem, r, hr, ?_⟩
      rw [hv]
      simpa [bne_iff_ne] using hne

def gdfLevel9 : GeoDataFrame :=
  { columns := ["NAME_3", "name"],
    rows := [ { cells := [("NAME_3", some "  "), ("name", some "Paris")],
                geometry := .polygon [[(0, 0), (2, 0), (0, 2)]] } ] }

/-- Witness for C8: on a dataset whose only usable level-9 candidate is
the blank-free column name, the selector returns name. -/
theorem select_name_field_spec_witness :
    select_name_field gdfLevel9 9 = .ok "name" := by
  refine ((select_name_field_spec gdfLevel9 9).1 "name").mpr ?_
  exact ⟨["NAME_4", "NAME_3"], [], rfl, by decide, by decide⟩

/-- Claim C10: admin level 5 has no entry in the per-level priority table
and scans the generic fallback list, so NAME_4 is preferred over NAME_1 at
level 5, while level 7 has its own dedicated priority list. -/
theorem select_name_field_level5_level7 :
    candidatesFor 5 =
      ["NAME_4", "NAME_3", "NAME_2", "NAME_1", "COUNTRY", "NAME", "name", "admin", "label"]
    ∧ candidatesFor 7 = ["NAME_3", "NAME_2", "NAME_1", "name"]
    ∧ ∀ gdf : GeoDataFrame, colQualifies gdf "NAME_4" = true →
        select_name_field gdf 5 = .ok "NAME_4" := by
  refine ⟨rfl, rfl, ?_⟩
  intro gdf h
  simp [select_name_field, candidatesFor, admin_name_map, default_candidates, selectLoop, h]

def gdfLevel5 : GeoDataFrame :=
  { columns := ["NAME_1", "NAME_4"],
    rows := [ { cells := [("NAME_1", some "Region Alpha"), ("NAME_4", some "Quarter Beta")],
                geometry := .polygon [[(0, 0), (3, 0), (0, 3)]] } ] }

/-- Witness for C10: with both NAME_1 and NAME_4 populated, level 5 picks
NAME_4. -/
theorem select_name_field_level5_witness :
    select_name_field gdfLevel5 5 = .ok "NAME_4" :=
  select_name_field_level5_level7.2.2 gdfLevel5 (by decide)

/-- Claim C6: for every group name that is a key of the alias table,
`resolve_group` returns exactly the member list obtained by a direct
lookup of the alias canonical name in the static group dataset, and
resolving the alias agrees with resolving the canonical name itself. -/
theorem resolve_group_alias_transparent (k : String)
    (hk : k ∈ group_aliases.map Prod.fst) (groups : List (String × List String)) :
    resolve_group (some k) groups =
      .ok (groupsGet groups ((group_aliases.lookup k).getD k))
    ∧ resolve_group (some k) groups =
        resolve_group (some ((group_aliases.lookup k).getD k)) groups := by
  fin_cases hk <;> exact ⟨rfl, rfl⟩

/-- Witness for C6: the alias gcc resolves exactly as the canonical GCC. -/
theorem resolve_group_alias_transparent_witness :
    resolve_group (some "gcc") [("GCC", ["Qatar", "Oman"])] =
      .ok (groupsGet [("GCC", ["Qatar", "Oman"])] ((group_aliases.lookup "gcc").getD "gcc"))
    ∧ resolve_group (some "gcc") [("GCC", ["Qatar", "Oman"])] =
        resolve_group (some ((group_aliases.lookup "gcc").getD "gcc"))
          [("GCC", ["Qatar", "Oman"])] :=
  resolve_group_alias_transparent "gcc" (by decide) [("GCC", ["Qatar", "Oman"])]

/-- Claim C7: when the country lookup fails, `country_to_iso3` raises an
error whose message holds the offending input name verbatim; for
recognized names it returns the looked-up 3-letter code without error. -/
theorem country_to_iso3_spec (lookup : String → Option String) (name : String) :
    (lookup name = none → ∃ pre suf,
        country_to_iso3 lookup name = .error (.countryResolution (pre ++ name ++ suf)))
    ∧ (∀ a3, lookup name = some a3 → country_to_iso3 lookup name = .ok a3) := by
  constructor
  · intro h
    refine ⟨"Could not resolve country name: ", "", ?_⟩
    simp [country_to_iso3, h]
  · intro a3 h
    simp [country_to_iso3, h]

/-- A small stand-in for the external country lookup table. -/
def demoLookup : String → Option String :=
  fun s => if s = "Brazil" then some "BRA" else none

/-- Witness for C7: Wakanda fails with its name in the message, Brazil
resolves to BRA. -/
theorem country_to_iso3_spec_witness :
    (∃ pre suf, country_to_iso3 demoLookup "Wakanda" =
        .error (.countryResolution (pre ++ "Wakanda" ++ suf)))
    ∧ country_to_iso3 demoLookup "Brazil" = .ok "BRA" :=
  ⟨(country_to_iso3_spec demoLookup "Wakanda").1 rfl,
   (country_to_iso3_spec demoLookup "Brazil").2 "BRA" rfl⟩

/-- Claim C9: `combine_geojsons` wraps the order-preserving concatenation
of the features of each input (all features of a collection input, the
single feature of a bare feature input) in a FeatureCollection envelope,
and on the empty input list returns the empty FeatureCollection rather
than an error. -/
theorem combine_geojsons_spec :
    (∀ l : List GeoJson, (∀ gj ∈ l, supportedGeoJson gj = true) →
        combine_geojsons l = .ok (.featureCollection (l.flatMap featuresOf)))
    ∧ combine_geojsons [] = .ok (.featureCollection []) := by
  constructor
  · intro l h
    simp [combine_geojsons, collectFeatures_of_supported l h, Except.map]
  · rfl

def featA : Feature := { name := some "Alpha", geometry := .polygon [[(0, 0), (1, 0), (0, 1)]] }

def featB : Feature := { name := some "Beta", geometry := .polygon [[(0, 0), (2, 0), (0, 2)]] }

def featC : Feature := { name := some "Gamma", geometry := .polygon [[(0, 0), (3, 0), (0, 3)]] }

/-- Witness for C9: a collection with two features plus one bare feature
combine into a three-feature collection in input order. -/
theorem combine_geojsons_spec_witness :
    combine_geojsons [.featureCollection [featA, featB], .feature featC] =
      .ok (.featureCollection [featA, featB, featC]) :=
  combine_geojsons_spec.1 [.featureCollection [featA, featB], .feature featC] (by decide)

/-- Claim C4 counterexample: on a group query with a missing group name,
`resolve_group` does not yield an empty member list: Python evaluates
`None.strip()` and raises AttributeError. -/
theorem resolve_group_none_counterexample :
    resolve_group none [("GCC", ["Qatar"])] = .error .attributeError ∧
    resolve_group none [("GCC", ["Qatar"])] ≠ .ok ([] : List String) := by
  exact ⟨rfl, by decide⟩

/-- Claim C4 (amended): a group query whose group name is missing fails
with the AttributeError raised by `None.strip()` inside `resolve_group`;
`get_data` propagates it (the query loop then reports it as a per-item
failure), and no empty-member dataset load happens. -/
theorem get_data_group_none (env : Env) (q : GeoQueryItem)
    (hg : q.is_group_query = true) (hn : q.group_name = none) :
    get_data env q = .error .attributeError := by
  simp [get_data, hg, hn, resolve_group]

def envGroups : Env :=
  { store := fun _ _ => none,
    globalDataset := { columns := ["name"], rows := [] },
    groups := [("GCC", ["Qatar"])],
    countryLookup := fun _ => none }

def qGroupNone : GeoQueryItem :=
  { area_name := some "GCC countries", admin_level := 2, is_group_query := true,
    group_name := none, parent_country := none }

/-- Witness for the amended C4. -/
theorem get_data_group_none_witness :
    get_data envGroups qGroupNone = .error .attributeError :=
  get_data_group_none envGroups qGroupNone rfl rfl

/-- Reduction of `get_data` to the shapefile branch: for a non-group query
at a level other than 2 whose country resolution succeeds. -/
theorem get_data_shapefile_branch (env : Env) (q : GeoQueryItem) (nm iso : String)
    (hng : q.is_group_query = false) (h2 : q.admin_level ≠ 2)
    (hpo : pyOr q.parent_country q.area_name = some nm)
    (hlk : env.countryLookup nm = some iso) :
    get_data env q =
      if generalCondition q then load_from_shapefile env.store iso q.admin_level none
      else load_from_shapefile env.store iso q.admin_level q.area_name := by
  simp [get_data, hng, h2, hpo, hlk, country_to_iso3]

/-- Claim C5: a failure while processing one query item does not abort the
remaining items: the query loop distributes over list concatenation, a
failing item contributes nothing, and a succeeding item contributes its
geometry collection at its input position regardless of what surrounds
it. -/
theorem runQueryLoop_isolated_failures (env : Env)
    (qs1 qs2 : List GeoQueryItem) (q : GeoQueryItem) :
    runQueryLoop env (qs1 ++ qs2) = runQueryLoop env qs1 ++ runQueryLoop env qs2
    ∧ (∀ e, processItem env q = .error e →
        runQueryLoop env (qs1 ++ q :: qs2) = runQueryLoop env qs1 ++ runQueryLoop env qs2)
    ∧ (∀ g, processItem env q = .ok g →
        runQueryLoop env (qs1 ++ q :: qs2) =
          runQueryLoop env qs1 ++ g :: runQueryLoop env qs2) := by
  refine ⟨runQueryLoop_append env qs1 qs2, ?_, ?_⟩
  · intro e he
    rw [runQueryLoop_append env qs1 (q :: qs2)]
    simp [runQueryLoop, he]
  · intro g hg
    rw [runQueryLoop_append env qs1 (q :: qs2)]
    simp [runQueryLoop, hg]

def qatarRow : Row :=
  { cells := [("name", some "Qatar")], geometry := .polygon [[(0, 0), (1, 0), (0, 1)]] }

def env5 : Env :=
  { store := fun _ _ => none,
    globalDataset := { columns := ["name"], rows := [qatarRow] },
    groups := [("GCC", ["Qatar"])],
    countryLookup := fun _ => none }

def qOk : GeoQueryItem :=
  { area_name := some "GCC countries", admin_level := 2, is_group_query := true,
    group_name := some "gcc", parent_country := none }

def qBad : GeoQueryItem :=
  { area_name := some "nowhere", admin_level := 2, is_group_query := true,
    group_name := none, parent_country := none }

/-- Witness for C5: the failing middle item is skipped while both flanking
items still contribute. -/
theorem runQueryLoop_isolated_failures_witness :
    runQueryLoop env5 ([qOk] ++ qBad :: [qOk]) =
      runQueryLoop env5 [qOk] ++ runQueryLoop env5 [qOk] :=
  (runQueryLoop_isolated_failures env5 [qOk] [qOk] qBad).2.1 .attributeError (by decide)

/-- Claim C3: for a non-group query at a general admin level (4, 6, 8 or
9) whose area name is absent or equals the parent country
case-insensitively, `get_data` returns the whole dataset found for the
resolved country at the requested level or its fallback, with no row
filtering applied. -/
theorem get_data_general_passthrough (env : Env) (q : GeoQueryItem)
    (nm iso : String) (l : Nat) (g : GeoDataFrame)
    (hng : q.is_group_query = false)
    (hlvl : q.admin_level ∈ general_admin_levels)
    (hcond : q.area_name = none ∨
       ∃ a p, q.area_name = some a ∧ q.parent_country = some p ∧ pyLower a = pyLower p)
    (hpo : pyOr q.parent_country q.area_name = some nm)
    (hlk : env.countryLookup nm = some iso)
    (hsd : searchDown env.store (pyUpper iso) q.admin_level = some (l, g)) :
    get_data env q = .ok g := by
  have h2 : q.admin_level ≠ 2 := by
    simp [general_admin_levels] at hlvl
    omega
  rw [get_data_shapefile_branch env q nm iso hng h2 hpo hlk]
  by_cases hgen : generalCondition q = true
  · rw [if_pos hgen]
    simp [load_from_shapefile, hsd]
  · rw [if_neg hgen]
    rcases hcond with hnone | ⟨a, p, ha, hp, hlow⟩
    · exact absurd (by simp [generalCondition, hlvl, hnone]) hgen
    · have hpempty : p = "" := by
        by_contra hpne
        exact hgen (by simp [generalCondition, hlvl, ha, hp, hpne, hlow])
      have haempty : a = "" := by
        apply pyLower_eq_empty
        rw [hlow, hpempty]
        rfl
      rw [ha, haempty]
      simp [load_from_shapefile, hsd]

def fraLevel4 : GeoDataFrame :=
  { columns := ["NAME_1"],
    rows := [ { cells := [("NAME_1", some "Bretagne")],
                geometry := .polygon [[(0, 0), (1, 0), (0, 1)]] } ] }

def envFra : Env :=
  { store := fun iso l => if iso = "FRA" ∧ l = 4 then some fraLevel4 else none,
    globalDataset := { columns := ["name"], rows := [] },
    groups := [],
    countryLookup := fun s => if s = "France" then some "FRA" else none }

def qFranceRegions : GeoQueryItem :=
  { area_name := some "France", admin_level := 4, is_group_query := false,
    group_name := none, parent_country := some "France" }

/-- Witness for C3: regions of France load the whole level-4 dataset. -/
theorem get_data_general_passthrough_witness :
    get_data envFra qFranceRegions = .ok fraLevel4 :=
  get_data_general_passthrough envFra qFranceRegions "France" "FRA" 4 fraLevel4
    rfl (by decide) (Or.inr ⟨"France", "France", rfl, rfl, rfl⟩) rfl rfl rfl

def gdfFra5 : GeoDataFrame :=
  { columns := ["COUNTRY", "NAME_1"],
    rows := [ { cells := [("COUNTRY", some "France"), ("NAME_1", some "Bretagne")],
                geometry := .polygon [[(0, 0), (1, 0), (0, 1)]] } ] }

def envFra5 : Env :=
  { store := fun iso l => if iso = "FRA" ∧ l = 5 then some gdfFra5 else none,
    globalDataset := { columns := ["name"], rows := [] },
    groups := [],
    countryLookup := fun s => if s = "France" then some "FRA" else none }

def qEmptyArea : GeoQueryItem :=
  { area_name := some "", admin_level := 5, is_group_query := false,
    group_name := none, parent_country := some "France" }

/-- Claim C2 counterexample: `qEmptyArea` is a non-group query at level 5
(different from 2 and not satisfying the general-levels pass-through
condition) whose empty area name matches no candidate column, yet
`get_data` returns the whole loaded dataset instead of raising
`areaNotFound`: Python `if area_name:` treats the empty string as absent
and skips the filter entirely. -/
theorem get_data_empty_area_counterexample :
    qEmptyArea.is_group_query = false
    ∧ qEmptyArea.admin_level ≠ 2
    ∧ generalCondition qEmptyArea = false
    ∧ name_columns.all
        (fun c => (filterByName gdfFra5 c (pyLower "")).rows.isEmpty) = true
    ∧ get_data envFra5 qEmptyArea = .ok gdfFra5
    ∧ get_data envFra5 qEmptyArea ≠ .error .areaNotFound := by decide

/-- Claim C2 (amended): for every non-group query with admin_level other
than 2 that does not satisfy the general-levels pass-through condition and
whose area name is present and non-empty, the loader filters the loaded
dataset by case-insensitive equality of the area name against the ordered
candidate columns, returns the rows of the first present column with a
match, and raises `areaNotFound` exactly when no present column yields a
match (an absent or empty area name instead returns the loaded dataset
unfiltered). -/
theorem get_data_filter_by_area (env : Env) (q : GeoQueryItem)
    (a nm iso : String) (l : Nat) (g : GeoDataFrame)
    (hng : q.is_group_query = false)
    (h2 : q.admin_level ≠ 2)
    (hgen : generalCondition q = false)
    (ha : q.area_name = some a) (hane : a ≠ "")
    (hpo : pyOr q.parent_country q.area_name = some nm)
    (hlk : env.countryLookup nm = some iso)
    (hsd : searchDown env.store (pyUpper iso) q.admin_level = some (l, g)) :
    (∀ c pre suf, name_columns = pre ++ c :: suf → c ∈ g.columns →
        (filterByName g c (pyLower a)).rows ≠ [] →
        (∀ p ∈ pre, p ∈ g.columns → (filterByName g p (pyLower a)).rows = []) →
        get_data env q = .ok (filterByName g c (pyLower a)))
    ∧ ((∀ c ∈ name_columns, c ∈ g.columns → (filterByName g c (pyLower a)).rows = []) →
        get_data env q = .error .areaNotFound) := by
  have hbase : get_data env q = load_from_shapefile env.store iso q.admin_level q.area_name := by
    rw [get_data_shapefile_branch env q nm iso hng h2 hpo hlk, if_neg (by simp [hgen])]
  constructor
  · intro c pre suf hdecomp hc hne hpre
    rw [hbase, ha]
    simp only [load_from_shapefile, hsd]
    rw [if_neg hane, hdecomp,
      findNameMatch_eq_some_first g (pyLower a) pre suf c hc hne hpre]
  · intro hall
    rw [hbase, ha]
    simp only [load_from_shapefile, hsd]
    rw [if_neg hane, (findNameMatch_eq_none_iff g (pyLower a) name_columns).mpr hall]

def qBretagne : GeoQueryItem :=
  { area_name := some "Bretagne", admin_level := 5, is_group_query := false,
    group_name := none, parent_country := some "France" }

/-- Witness for the amended C2: a level-5 query for Bretagne inside France
returns exactly the rows matching bretagne in NAME_1, the first present
candidate column with a match. -/
theorem get_data_filter_by_area_witness :
    get_data envFra5 qBretagne = .ok (filterByName gdfFra5 "NAME_1" (pyLower "Bretagne")) :=
  (get_data_filter_by_area envFra5 qBretagne "Bretagne" "France" "FRA" 5 gdfFra5
      rfl (by decide) (by decide) rfl (by decide) rfl rfl rfl).1
    "NAME_1" ["COUNTRY", "NAME_0"] ["NAME_2", "NAME_3", "NAME_4", "NAME_5"] rfl
    (by decide) (by decide) (by decide)
